import Mathlib

/-!
# Skip list support code: the coin toss, the index error, and the `SortedMap` type

A shallow embedding of `src/cpp/SkipList.cpp` and of the `SortedMap` part of
`src/cpp/cSortedMap.cpp`.

* `rand()` / `srand()` belong to the C library.  They are a parameter of the
  development (`CRand`): a generator state, the constant `RAND_MAX`, the state a
  process starts with, and the two functions as state transformers.  What the C
  standard promises about them (7.22.2) is stated as the predicates
  `CRand.SeedContract` and `CRand.StartContract`.
* The C++ `throw` of `_throw_exceeds_size` is the `Except.error` result.
* The global C++ locale, which a new `std::ostringstream` adopts, is a parameter
  of `_throw_exceeds_size` (`Locale`: separator and digit grouping).
* `__FILE__` is a parameter of the functions that call `PyErr_BadInternalCall`.
* Python objects are addresses (`Ptr`, `NULL = 0`); the interpreter's error
  indicator is explicit state.
-/

namespace SkipList

/-! ## The C library generator -/

/-- The C library's pseudo-random generator: `rand()` and `srand()` act on one
hidden, process-wide state. -/
structure CRand where
  /-- The hidden state of the generator. -/
  State : Type
  /-- The largest value `rand()` returns. -/
  RAND_MAX : Nat
  /-- The state of the generator when the process starts. -/
  start : State
  /-- The call `srand(seed)`. -/
  srand : Nat → State → State
  /-- The call `rand()`: the value returned and the state left behind. -/
  rand : State → Nat × State

/-- The values returned by `n` successive calls of `rand()`, and the state left. -/
def CRand.rands (L : CRand) : Nat → L.State → List Nat × L.State
  | 0, g => ([], g)
  | n + 1, g =>
    let p := L.rand g
    let q := CRand.rands L n p.2
    (p.1 :: q.1, q.2)

/-- C standard, 7.22.2.2: calling `srand` with the same seed repeats the sequence
of values returned by `rand`, whatever the generator did before. -/
def CRand.SeedContract (L : CRand) : Prop :=
  ∀ (seed : Nat) (g₁ g₂ : L.State) (n : Nat),
    (L.rands n (L.srand seed g₁)).1 = (L.rands n (L.srand seed g₂)).1

/-- C standard, 7.22.2.2: if `rand` is called before any call of `srand`, the
sequence is the one generated after `srand(1)`. -/
def CRand.StartContract (L : CRand) : Prop :=
  ∀ (g : L.State) (n : Nat), (L.rands n L.start).1 = (L.rands n (L.srand 1 g)).1

/-- The sample implementation of `rand`/`srand` printed in the C standard
(7.22.2.2, `RAND_MAX` is 32767), with a 32 bit `unsigned long`:
`next = next * 1103515245 + 12345; return (unsigned)(next / 65536) % 32768;`
and `srand(seed)` is `next = seed;`, `next` starting at 1. -/
def cStdRand : CRand where
  State := Nat
  RAND_MAX := 32767
  start := 1
  srand := fun seed _ => seed % 2 ^ 32
  rand := fun next =>
    let next1 := (next * 1103515245 + 12345) % 2 ^ 32
    (next1 / 65536 % 32768, next1)

/-! ## `SkipList.cpp` -/

/-- The comparison of `tossCoin`, `rand() < RAND_MAX / 2`, as a function of
`RAND_MAX` and of the value `r` that `rand()` returned. -/
def tossCoinOf (RAND_MAX r : Nat) : Bool :=
  decide (r < RAND_MAX / 2)

/-- `bool tossCoin() { return rand() < RAND_MAX / 2; }` -/
def tossCoin (L : CRand) (g : L.State) : Bool × L.State :=
  let p := L.rand g
  (tossCoinOf L.RAND_MAX p.1, p.2)

/-- `void seedRand(unsigned seed) { srand(seed); }`; the argument is converted to
`unsigned` (32 bits). -/
def seedRand (L : CRand) (seed : Nat) (g : L.State) : L.State :=
  L.srand (seed % 2 ^ 32) g

/-- The outcomes of `n` successive calls of `tossCoin()`, and the state left. -/
def tossCoins (L : CRand) : Nat → L.State → List Bool × L.State
  | 0, g => ([], g)
  | n + 1, g =>
    let p := tossCoin L g
    let q := tossCoins L n p.2
    (p.1 :: q.1, q.2)

/-- How many of the `RAND_MAX + 1` values `0..RAND_MAX` that `rand()` can return
make `tossCoin` answer heads. -/
def headsCount (RAND_MAX : Nat) : Nat :=
  ((List.range (RAND_MAX + 1)).filter (tossCoinOf RAND_MAX)).length

/-- A call made by one of the engine instances of the process. -/
inductive Call where
  | tossCoin (inst : Nat)
  | seedRand (inst : Nat) (seed : Nat)
  deriving DecidableEq, Repr

/-- The instance making the call. -/
def Call.inst : Call → Nat
  | .tossCoin i => i
  | .seedRand i _ => i

/-- Whether the call is a `tossCoin()`. -/
def Call.isToss : Call → Bool
  | .tossCoin _ => true
  | .seedRand _ _ => false

/-- Runs the calls in order on the one generator state of the process; the
result lists the outcome of every `tossCoin()` with the instance that made it. -/
def exec (L : CRand) : L.State → List Call → List (Nat × Bool)
  | _, [] => []
  | g, Call.tossCoin i :: tr =>
    let p := tossCoin L g
    (i, p.1) :: exec L p.2 tr
  | g, Call.seedRand _ seed :: tr => exec L (seedRand L seed g) tr

/-- The outcomes instance `i` sees for its own `tossCoin()` calls. -/
def observed (L : CRand) (i : Nat) (g : L.State) (tr : List Call) : List Bool :=
  ((exec L g tr).filter (fun p => p.1 == i)).map Prod.snd

/-- A run of a program that never calls `seedRand` and tosses the coin `n`
times.  `env` stands for the time and entropy available to the run: nothing in
the source reads either, the generator is used in the state the process starts
with. -/
def unseededRun (L : CRand) (_env : Nat) (n : Nat) : List Bool :=
  (tossCoins L n L.start).1

/-- The exception classes a skip list operation can throw.  `IndexError` is the
class thrown by `_throw_exceeds_size`; its declaration is in `SkipList.h`. -/
inductive Thrown where
  | IndexError (what : String)
  | ValueError (what : String)
  | FailedComparison (what : String)
  deriving DecidableEq, Repr

/-- The `std::numpunct<char>` facet of a C++ locale, as far as the output of an
integer uses it: the character `thousands_sep()` and the `char` values of
`grouping()`, the size of each digit group, rightmost group first. -/
structure Locale where
  thousands_sep : Char
  grouping : List Int

/-- The classic locale, the global C++ locale of a program that never sets one:
no grouping. -/
def classicLocale : Locale :=
  ⟨',', []⟩

/-- A locale with groups of three digits separated by a comma, as `en_US`. -/
def enUSLocale : Locale :=
  ⟨',', [3]⟩

/-- Whether the locale groups digits at all: it does unless `grouping()` is
empty or its first `char` is `<= 0` or `CHAR_MAX` (127), which makes the
rightmost group unlimited. -/
def Locale.groupsDigits (loc : Locale) : Bool :=
  match loc.grouping with
  | [] => false
  | g :: _ => decide (0 < g ∧ g ≠ 127)

/-- The separators `std::num_put` inserts, on the digits least significant
first: the group at position `i` has `grouping()[i]` digits, the last size is
repeated, a size `<= 0` or `CHAR_MAX` ends the grouping; `prev` is the size of
the group before, `fuel` bounds the number of groups. -/
def insertSeparators (sep : Char) : Nat → List Int → Int → List Char → List Char
  | 0, _, _, ds => ds
  | fuel + 1, gs, prev, ds =>
    let k : Int := match gs with
      | [] => prev
      | g :: _ => g
    if k ≤ 0 ∨ k = 127 then ds
    else if ds.length ≤ k.toNat then ds
    else ds.take k.toNat ++ sep :: insertSeparators sep fuel gs.tail k (ds.drop k.toNat)

/-- The characters `std::num_put` writes for an unsigned integer on a stream
with default flags and the locale `loc`: the decimal digits, grouped. -/
def numPut (loc : Locale) (n : Nat) : List Char :=
  (insertSeparators loc.thousands_sep (Nat.toDigits 10 n).length loc.grouping 0
    (Nat.toDigits 10 n).reverse).reverse

/-- The text `oss << size` appends for a `size_t`.  The stream was just
constructed, so its locale `loc` is the global C++ locale of that moment. -/
def streamInsert (loc : Locale) (oss : String) (size : Nat) : String :=
  oss ++ String.mk (numPut loc size)

/-- The function `_throw_exceeds_size`:
```
void _throw_exceeds_size(size_t size) {
#ifdef INCLUDE_METHODS_THAT_USE_STREAMS
    std::ostringstream oss;
    oss << "Index out of range 0 <= index < " << size;
    std::string err_msg = oss.str();
#else
    std::string err_msg = "Index out of range.";
#endif
    throw IndexError(err_msg);
}
```
The result type has the thrown exception as `Except.error` and a normal return
as `Except.ok ()`; `loc` is the global C++ locale when the function is called. -/
def _throw_exceeds_size (INCLUDE_METHODS_THAT_USE_STREAMS : Bool) (loc : Locale)
    (size : Nat) : Except Thrown Unit :=
  let err_msg : String :=
    if INCLUDE_METHODS_THAT_USE_STREAMS then
      streamInsert loc ("" ++ "Index out of range 0 <= index < ") size
    else
      "Index out of range."
  Except.error (Thrown.IndexError err_msg)

/-- The number a list of decimal digit characters denotes, most significant
digit first. -/
def decimalValue (ds : List Char) : Nat :=
  ds.foldl (fun acc c => acc * 10 + (c.toNat - 48)) 0

end SkipList

/-! ## `cSortedMap.cpp` -/

namespace CSortedMap

/-- The address of a Python object. -/
abbrev Ptr := Nat

/-- The null pointer. -/
def NULL : Ptr := 0

/-- The part of the CPython runtime `SortedMap_init` looks at: the type of every
object (`Py_TYPE`), the name of every type object (`tp_name`), and the
addresses of the four builtin type objects the function names. -/
structure PyRuntime where
  Py_TYPE : Ptr → Ptr
  tp_name : Ptr → String
  PyType_Type : Ptr
  PyLong_Type : Ptr
  PyFloat_Type : Ptr
  PyBytes_Type : Ptr

/-- What CPython guarantees about the builtin type objects: `int`, `float` and
`bytes` are three different objects, each of them an instance of exactly
`type`. -/
def PyRuntime.WellFormed (R : PyRuntime) : Prop :=
  R.Py_TYPE R.PyLong_Type = R.PyType_Type ∧
  R.Py_TYPE R.PyFloat_Type = R.PyType_Type ∧
  R.Py_TYPE R.PyBytes_Type = R.PyType_Type ∧
  R.PyLong_Type ≠ R.PyFloat_Type ∧
  R.PyLong_Type ≠ R.PyBytes_Type ∧
  R.PyFloat_Type ≠ R.PyBytes_Type

/-- The macro `PyType_CheckExact(op)`: `Py_TYPE(op) == &PyType_Type`. -/
def PyType_CheckExact (R : PyRuntime) (op : Ptr) : Bool :=
  R.Py_TYPE op == R.PyType_Type

/-- The exception classes set in this file, or by the argument parser. -/
inductive PyExc where
  | ValueError
  | TypeError
  | SystemError
  deriving DecidableEq, Repr

/-- A pending Python exception: its class and its message. -/
structure PyErr where
  exc : PyExc
  msg : String
  deriving DecidableEq, Repr

/-- The interpreter state the functions act on: the error indicator, and the
objects that were handed to `Py_DECREF`, in order. -/
structure PyState where
  err : Option PyErr
  decrefs : List Ptr
  deriving DecidableEq, Repr

/-- The macro `PyErr_Occurred()` as a test. -/
def PyErr_Occurred (st : PyState) : Bool :=
  st.err.isSome

/-- The call `PyErr_Format(exception, ...)` with the message already formatted. -/
def PyErr_Format (st : PyState) (exc : PyExc) (msg : String) : PyState :=
  { st with err := some ⟨exc, msg⟩ }

/-- The macro `PyErr_BadInternalCall()`, which is
`_PyErr_BadInternalCall(__FILE__, __LINE__)`: sets `SystemError` with the
message `<file>:<line>: bad argument to internal function`. -/
def PyErr_BadInternalCall (file : String) (line : Nat) (st : PyState) : PyState :=
  { st with err := some ⟨PyExc.SystemError,
      file ++ ":" ++ Nat.repr line ++ ": bad argument to internal function"⟩ }

/-- The enumeration `KeyDataType` of `cOrderedStructs.h`: the four enumerators
the source names, and `other` for any further value of the underlying integer. -/
inductive KeyDataType where
  | TYPE_ZERO
  | TYPE_LONG
  | TYPE_DOUBLE
  | TYPE_BYTES
  | other (code : Nat)
  deriving DecidableEq, Repr

/-- The key type `TYPE_TYPE_LONG`, a C `long`. -/
abbrev TYPE_TYPE_LONG := Int

/-- The key type `TYPE_TYPE_DOUBLE`, a C `double`, as its 64 bit pattern: no
function of this file computes with a key. -/
abbrev TYPE_TYPE_DOUBLE := Nat

/-- The key type `TYPE_TYPE_BYTES`, a byte string. -/
abbrev TYPE_TYPE_BYTES := List Nat

/-- A `std::map<K, PyObject*>`: its entries in key order. -/
abbrev StdMap (K : Type) := List (K × Ptr)

/-- The member function `std::map::size()`. -/
def StdMap.size {K : Type} (m : StdMap K) : Nat :=
  m.length

/-- The anonymous union of `SortedMap`: one pointer, `NULL` or the address of a
map of one of the three flavours (given here with the map it points to). -/
inductive MapPtr where
  | null
  | keyLong (m : StdMap TYPE_TYPE_LONG)
  | keyDouble (m : StdMap TYPE_TYPE_DOUBLE)
  | keyBytes (m : StdMap TYPE_TYPE_BYTES)
  deriving DecidableEq, Repr

/-- The object struct:
```
typedef struct {
    PyObject_HEAD
    enum KeyDataType _data_type;
    union { ... *_pKeyVoid; ... *_pKeyLong; ... *_pKeyDouble; ... *_pKeyBytes; };
} SortedMap;
```
`freed` records that `tp_free` was called on the object. -/
structure SortedMap where
  ob_refcnt : Int
  _data_type : KeyDataType
  _p : MapPtr
  freed : Bool
  deriving DecidableEq, Repr

/-- What stops a function before it returns: an `assert` that fails in a build
without `NDEBUG`, or a pointer used in a way C++ leaves undefined. -/
inductive Fault where
  | assertion (text : String)
  | undefined (what : String)
  deriving DecidableEq, Repr

/-- The macro `assert(cond)`: nothing when `NDEBUG` is defined. -/
def cAssert (NDEBUG : Bool) (cond : Bool) (text : String) : Except Fault Unit :=
  if NDEBUG || cond then Except.ok () else Except.error (Fault.assertion text)

/-- Reading the union member `_pKeyVoid` as a truth value. -/
def MapPtr.nonNull : MapPtr → Bool
  | .null => false
  | _ => true

/-- Dereferencing the union member `_pKeyLong`. -/
def MapPtr.derefLong : MapPtr → Except Fault (StdMap TYPE_TYPE_LONG)
  | .keyLong m => Except.ok m
  | .null => Except.error (Fault.undefined "null pointer dereferenced")
  | _ => Except.error (Fault.undefined "map read through a member of another type")

/-- Dereferencing the union member `_pKeyDouble`. -/
def MapPtr.derefDouble : MapPtr → Except Fault (StdMap TYPE_TYPE_DOUBLE)
  | .keyDouble m => Except.ok m
  | .null => Except.error (Fault.undefined "null pointer dereferenced")
  | _ => Except.error (Fault.undefined "map read through a member of another type")

/-- Dereferencing the union member `_pKeyBytes`. -/
def MapPtr.derefBytes : MapPtr → Except Fault (StdMap TYPE_TYPE_BYTES)
  | .keyBytes m => Except.ok m
  | .null => Except.error (Fault.undefined "null pointer dereferenced")
  | _ => Except.error (Fault.undefined "map read through a member of another type")

/-- The function `SortedMap_new`; `allocated` is what `type->tp_alloc(type, 0)`
returned (`none` for `NULL`). -/
def SortedMap_new (allocated : Option SortedMap) : Option SortedMap :=
  match allocated with
  | none => none
  | some self => some { self with _data_type := KeyDataType.TYPE_ZERO, _p := MapPtr.null }

/-- The function template `_decref_all_values`: `Py_DECREF` on the value of
every entry, in key order. -/
def _decref_all_values {K : Type} (p : StdMap K) (st : PyState) : PyState :=
  { st with decrefs := st.decrefs ++ p.map Prod.snd }

/-- The function `SortedMap_dealloc` (`self` is not `NULL`); `file` is what
`__FILE__` expands to when the file is compiled. -/
def SortedMap_dealloc (file : String) (self : SortedMap) (st : PyState) :
    Except Fault (SortedMap × PyState) :=
  if self._p.nonNull then
    match self._data_type with
    | KeyDataType.TYPE_LONG => do
      let m ← self._p.derefLong
      Except.ok ({ self with freed := true }, _decref_all_values m st)
    | KeyDataType.TYPE_DOUBLE => do
      let m ← self._p.derefDouble
      Except.ok ({ self with freed := true }, _decref_all_values m st)
    | KeyDataType.TYPE_BYTES => do
      let m ← self._p.derefBytes
      Except.ok ({ self with freed := true }, _decref_all_values m st)
    | _ => Except.ok ({ self with freed := true }, PyErr_BadInternalCall file 120 st)
  else
    Except.ok (self, st)

/-- The macro `Py_XDECREF(self)` for a `self` that is not `NULL`: one reference
less, and `tp_dealloc`, which is `SortedMap_dealloc`, when none is left. -/
def Py_XDECREF (file : String) (self : SortedMap) (st : PyState) :
    Except Fault (SortedMap × PyState) :=
  let self1 := { self with ob_refcnt := self.ob_refcnt - 1 }
  if self1.ob_refcnt = 0 then SortedMap_dealloc file self1 st else Except.ok (self1, st)

/-- What `SortedMap_init` leaves: the value returned, the object, the
interpreter state. -/
structure InitResult where
  ret_val : Int
  self : SortedMap
  st : PyState
  deriving DecidableEq, Repr

/-- The code of `SortedMap_init` from the label `except:` on. -/
def SortedMap_init_except (file : String) (NDEBUG : Bool) (self : SortedMap)
    (st : PyState) :
    Except Fault InitResult := do
  cAssert NDEBUG (PyErr_Occurred st) "PyErr_Occurred()"
  let r ← Py_XDECREF file self st
  Except.ok ⟨-1, r.1, r.2⟩

/-- The code of `SortedMap_init` after the map was created, up to `finally:`. -/
def SortedMap_init_created (NDEBUG : Bool) (self : SortedMap) (st : PyState) :
    Except Fault InitResult := do
  cAssert NDEBUG (!PyErr_Occurred st) "! PyErr_Occurred()"
  cAssert NDEBUG self._p.nonNull "self->_pKeyVoid"
  Except.ok ⟨0, self, st⟩

/-- The function `SortedMap_init`.  `parsed` is the outcome of
`PyArg_ParseTupleAndKeywords(args, kwargs, "O:__init__", kwlist, &value_type)`:
the object stored in `value_type`, or the exception the parser set. -/
def SortedMap_init (file : String) (R : PyRuntime) (NDEBUG : Bool) (self : SortedMap)
    (parsed : Except PyErr Ptr) (st : PyState) : Except Fault InitResult :=
  match parsed with
  | Except.error e => SortedMap_init_except file NDEBUG self { st with err := some e }
  | Except.ok value_type => do
    cAssert NDEBUG (value_type != NULL) "value_type"
    if !PyType_CheckExact R value_type then
      SortedMap_init_except file NDEBUG self
        (PyErr_Format st PyExc.ValueError
          ("Argument to __init__ must be type object not \"" ++
            R.tp_name (R.Py_TYPE value_type) ++ "\""))
    else if value_type = R.PyLong_Type then
      SortedMap_init_created NDEBUG
        { self with _data_type := KeyDataType.TYPE_LONG, _p := MapPtr.keyLong [] } st
    else if value_type = R.PyFloat_Type then
      SortedMap_init_created NDEBUG
        { self with _data_type := KeyDataType.TYPE_DOUBLE, _p := MapPtr.keyDouble [] } st
    else if value_type = R.PyBytes_Type then
      SortedMap_init_created NDEBUG
        { self with _data_type := KeyDataType.TYPE_BYTES, _p := MapPtr.keyBytes [] } st
    else
      SortedMap_init_except file NDEBUG self
        (PyErr_Format st PyExc.ValueError
          ("Argument to __init__ must be long, float or bytes, not \"" ++
            R.tp_name value_type ++ "\""))

/-- A Python object a function returns: an `int` with its value. -/
inductive PyObject where
  | PyLong (value : Int)
  deriving DecidableEq, Repr

/-- The conversion of a `size_t` to the `Py_ssize_t` parameter of
`PyLong_FromSsize_t` (64 bits, two's complement). -/
def toSsize_t (n : Nat) : Int :=
  if n % 2 ^ 64 < 2 ^ 63 then ((n % 2 ^ 64 : Nat) : Int) else ((n % 2 ^ 64 : Nat) : Int) - 2 ^ 64

/-- The call `PyLong_FromSsize_t(n)` for a `size_t` argument. -/
def PyLong_FromSsize_t (n : Nat) : Option PyObject :=
  some (PyObject.PyLong (toSsize_t n))

/-- The function `SortedMap_size`.  `ASSERT_TYPE_IN_RANGE` is a macro of
`cOrderedStructs.h`, an assertion on `self->_data_type`; its condition is the
parameter `typeInRange`.  The result is the pointer returned (`none` for
`NULL`) and the interpreter state. -/
def SortedMap_size (file : String) (NDEBUG : Bool) (typeInRange : KeyDataType → Bool)
    (self : SortedMap)
    (st : PyState) : Except Fault (Option PyObject × PyState) := do
  cAssert NDEBUG self._p.nonNull "self && self->_pKeyVoid"
  cAssert NDEBUG (typeInRange self._data_type) "ASSERT_TYPE_IN_RANGE"
  cAssert NDEBUG (!PyErr_Occurred st) "! PyErr_Occurred()"
  match self._data_type with
  | KeyDataType.TYPE_LONG => do
    let m ← self._p.derefLong
    Except.ok (PyLong_FromSsize_t m.size, st)
  | KeyDataType.TYPE_DOUBLE => do
    let m ← self._p.derefDouble
    Except.ok (PyLong_FromSsize_t m.size, st)
  | KeyDataType.TYPE_BYTES => do
    let m ← self._p.derefBytes
    Except.ok (PyLong_FromSsize_t m.size, st)
  | _ => Except.ok (none, PyErr_BadInternalCall file 147 st)

/-- The number of elements of the map of the flavour `_data_type` selects, when
the union holds a map of that flavour. -/
def selectedMapSize (self : SortedMap) : Option Nat :=
  match self._data_type, self._p with
  | KeyDataType.TYPE_LONG, MapPtr.keyLong m => some m.size
  | KeyDataType.TYPE_DOUBLE, MapPtr.keyDouble m => some m.size
  | KeyDataType.TYPE_BYTES, MapPtr.keyBytes m => some m.size
  | _, _ => none

/-- The invariant of the object struct that `SortedMap_new` and
`SortedMap_init` keep: the union is `NULL`, or it holds a map of the flavour
`_data_type` names. -/
def SortedMap.Valid (self : SortedMap) : Prop :=
  self._p = MapPtr.null ∨ (selectedMapSize self).isSome

/-- A runtime with `type` at address 1, `int` at 2, `float` at 3, `bytes` at 4,
`str` at 5, a class with a metaclass at 7 (the metaclass at 6), and every other
address an `int` object. -/
def sampleRuntime : PyRuntime where
  Py_TYPE := fun p => if p = 1 ∨ p = 2 ∨ p = 3 ∨ p = 4 ∨ p = 5 ∨ p = 6 then 1
    else if p = 7 then 6 else 2
  tp_name := fun p => if p = 1 then "type" else if p = 2 then "int"
    else if p = 3 then "float" else if p = 4 then "bytes" else if p = 5 then "str"
    else if p = 6 then "Meta" else "C"
  PyType_Type := 1
  PyLong_Type := 2
  PyFloat_Type := 3
  PyBytes_Type := 4

/-- The path of the source file as the build hands it to the compiler. -/
def sampleFile : String :=
  "src/cpp/cSortedMap.cpp"

/-- The object `tp_alloc` hands to `SortedMap_new`: one reference, zeroed. -/
def freshObject : SortedMap :=
  ⟨1, KeyDataType.TYPE_ZERO, MapPtr.null, false⟩

/-- The condition `self->_data_type > TYPE_ZERO && self->_data_type <
TYPE_OVERFLOW` on the enumerators the source names. -/
def sampleTypeInRange : KeyDataType → Bool
  | KeyDataType.TYPE_LONG => true
  | KeyDataType.TYPE_DOUBLE => true
  | KeyDataType.TYPE_BYTES => true
  | _ => false

end CSortedMap

/-! ## Theorems about `SkipList.cpp` -/

namespace SkipList

theorem filter_lt_range_length (k : Nat) :
    ∀ n : Nat, ((List.range n).filter (fun r => decide (r < k))).length = min n k := by
  intro n
  induction n with
  | zero => simp
  | succ n ih =>
    rw [List.range_succ, List.filter_append, List.length_append, ih]
    by_cases h : n < k
    · simp [List.filter, h]; omega
    · simp [List.filter, h]; omega

theorem headsCount_eq (RAND_MAX : Nat) : headsCount RAND_MAX = RAND_MAX / 2 := by
  unfold headsCount
  have h := filter_lt_range_length (RAND_MAX / 2) (RAND_MAX + 1)
  have e : tossCoinOf RAND_MAX = fun r => decide (r < RAND_MAX / 2) := by
    funext r; rfl
  rw [e, h]
  omega

theorem headsCount_never_half (RAND_MAX : Nat) : 2 * headsCount RAND_MAX ≠ RAND_MAX + 1 := by
  rw [headsCount_eq]
  omega

theorem tossCoins_eq_map (L : CRand) :
    ∀ (n : Nat) (g : L.State),
      (tossCoins L n g).1 = (L.rands n g).1.map (tossCoinOf L.RAND_MAX) ∧
      (tossCoins L n g).2 = (L.rands n g).2 := by
  intro n
  induction n with
  | zero => intro g; simp [tossCoins, CRand.rands]
  | succ n ih =>
    intro g
    have h := ih (L.rand g).2
    simp [tossCoins, CRand.rands, tossCoin, h.1, h.2]

theorem cStdRand_seedContract : cStdRand.SeedContract := by
  intro seed g₁ g₂ n
  rfl

theorem cStdRand_startContract : cStdRand.StartContract := by
  intro g n
  rfl

theorem exec_tosses (L : CRand) :
    ∀ (tr : List Call) (g : L.State), (∀ c ∈ tr, c.isToss = true) →
      (exec L g tr).map Prod.snd = (tossCoins L tr.length g).1 ∧
      (exec L g tr).map Prod.fst = tr.map Call.inst := by
  intro tr
  induction tr with
  | nil => intro g _; simp [exec, tossCoins]
  | cons c tr ih =>
    intro g h
    cases c with
    | tossCoin i =>
      have h1 := ih (tossCoin L g).2 (fun c hc => h c (List.mem_cons_of_mem _ hc))
      simp [exec, tossCoins, Call.inst, h1.1, h1.2]
    | seedRand i s =>
      have := h (Call.seedRand i s) (List.mem_cons_self _ _)
      simp [Call.isToss] at this

theorem toDigitsCore_value :
    ∀ (fuel n : Nat) (ds : List Char), n < fuel →
      (Nat.toDigitsCore 10 fuel n ds).foldl (fun acc c => acc * 10 + (c.toNat - 48)) 0 =
        ds.foldl (fun acc c => acc * 10 + (c.toNat - 48)) n := by
  intro fuel
  induction fuel with
  | zero => intro n ds h; omega
  | succ fuel ih =>
    intro n ds h
    have hd : (Nat.digitChar (n % 10)).toNat - 48 = n % 10 := by
      have : n % 10 < 10 := Nat.mod_lt _ (by decide)
      interval_cases (n % 10) <;> rfl
    simp only [Nat.toDigitsCore]
    by_cases h0 : n / 10 = 0
    · simp only [h0, if_true, List.foldl_cons, hd]
      congr 1
      omega
    · simp only [h0, if_false]
      rw [ih (n / 10) _ (by omega)]
      simp only [List.foldl_cons, hd]
      congr 1
      omega

theorem decimalValue_repr (n : Nat) : decimalValue (Nat.repr n).data = n := by
  have h := toDigitsCore_value (n + 1) n [] (by omega)
  simpa [decimalValue, Nat.repr, Nat.toDigits, List.asString] using h

theorem insertSeparators_ungrouped (sep : Char) (fuel : Nat) (gs : List Int)
    (ds : List Char)
    (h : (match gs with
      | [] => false
      | g :: _ => decide (0 < g ∧ g ≠ 127)) = false) :
    insertSeparators sep fuel gs 0 ds = ds := by
  cases fuel with
  | zero => rfl
  | succ fuel =>
    cases gs with
    | nil => simp [insertSeparators]
    | cons g gs =>
      have hg : g ≤ 0 ∨ g = 127 := by
        simp only [decide_eq_false_iff_not, not_and, not_not] at h
        by_cases h0 : 0 < g
        · exact Or.inr (h h0)
        · exact Or.inl (by omega)
      simp [insertSeparators, hg]

theorem numPut_ungrouped (loc : Locale) (n : Nat) (h : loc.groupsDigits = false) :
    numPut loc n = Nat.toDigits 10 n := by
  unfold numPut
  rw [insertSeparators_ungrouped _ _ _ _ h, List.reverse_reverse]

/-- C1, as stated, fails: with `RAND_MAX = 2147483647` the draw
`r = 1073741823` is tails, as the comparison `r < RAND_MAX / 2` says, so the
draws giving heads are the 1073741823 values below it, one fewer than half of
the 2147483648 values `rand()` can return. -/
theorem tossCoin_heads_not_half :
    tossCoinOf 2147483647 1073741823 = false ∧
    headsCount 2147483647 = 1073741823 ∧
    2 * headsCount 2147483647 ≠ 2147483647 + 1 :=
  ⟨by decide, headsCount_eq _, headsCount_never_half _⟩

/-- C1, amended.  For every `RAND_MAX`, `tossCoin` answers heads exactly when
the value drawn is below `RAND_MAX / 2`, and the draws giving heads are
`RAND_MAX / 2` of the `RAND_MAX + 1` values; for an odd `RAND_MAX = 2 * k + 1`
(as 2147483647 and 32767) that is `k`, one fewer than half. -/
theorem tossCoin_heads_count (RAND_MAX : Nat) :
    (∀ r : Nat, tossCoinOf RAND_MAX r = true ↔ r < RAND_MAX / 2) ∧
    headsCount RAND_MAX = RAND_MAX / 2 ∧
    2 * headsCount RAND_MAX + RAND_MAX % 2 = RAND_MAX ∧
    (∀ k : Nat, headsCount (2 * k + 1) = k ∧
      2 * (headsCount (2 * k + 1) + 1) = (2 * k + 1) + 1) := by
  refine ⟨fun r => by simp [tossCoinOf], headsCount_eq _, ?_, ?_⟩
  · rw [headsCount_eq]
    omega
  · intro k
    rw [headsCount_eq]
    omega

/-- C2. On a C library whose `srand` repeats the sequence of `rand` for a
repeated seed, the `n` outcomes of `tossCoin()` after `seedRand(s)` are the same
from every two prior generator states: they depend on `s` only. -/
theorem seedRand_reproducible (L : CRand) (hL : L.SeedContract) (s n : Nat)
    (g₁ g₂ : L.State) :
    (tossCoins L n (seedRand L s g₁)).1 = (tossCoins L n (seedRand L s g₂)).1 := by
  rw [(tossCoins_eq_map L n _).1, (tossCoins_eq_map L n _).1]
  unfold seedRand
  rw [hL (s % 2 ^ 32) g₁ g₂ n]

/-- C2, at the sample generator of the C standard, seed 7, five tosses, after
two different histories. -/
theorem seedRand_reproducible_witness :
    cStdRand.SeedContract ∧
    (tossCoins cStdRand 5 (seedRand cStdRand 7 (tossCoins cStdRand 3 cStdRand.start).2)).1 =
      (tossCoins cStdRand 5 (seedRand cStdRand 7 (seedRand cStdRand 99 cStdRand.start))).1 :=
  ⟨cStdRand_seedContract,
    seedRand_reproducible cStdRand cStdRand_seedContract 7 5
      (tossCoins cStdRand 3 cStdRand.start).2 (seedRand cStdRand 99 cStdRand.start)⟩

/-- C3, as stated, fails: on the sample generator of the C standard, instance 0
seeds with 1 and tosses once.  Alone it sees tails; when instance 1 tosses in
between, it sees heads. -/
theorem instances_interfere :
    observed cStdRand 0 cStdRand.start [Call.seedRand 0 1, Call.tossCoin 0] = [false] ∧
    observed cStdRand 0 cStdRand.start
      [Call.seedRand 0 1, Call.tossCoin 1, Call.tossCoin 0] = [true] ∧
    observed cStdRand 0 cStdRand.start [Call.seedRand 0 1, Call.tossCoin 0] ≠
      observed cStdRand 0 cStdRand.start
        [Call.seedRand 0 1, Call.tossCoin 1, Call.tossCoin 0] := by
  decide

/-- C3, amended.  The generator is the one of the process, shared by all
instances: after `seedRand(s)` and with no other `seedRand`, the `k`-th
`tossCoin()` of the process, whichever instance makes it, returns the `k`-th
outcome of the sequence of `s`; an instance that makes all the calls itself
observes exactly that sequence. -/
theorem shared_generator_call_order (L : CRand) (i s : Nat) (g : L.State)
    (tr : List Call) (h : ∀ c ∈ tr, c.isToss = true) :
    (exec L g (Call.seedRand i s :: tr)).map Prod.snd =
      (tossCoins L tr.length (seedRand L s g)).1 ∧
    (exec L g (Call.seedRand i s :: tr)).map Prod.fst = tr.map Call.inst ∧
    ((∀ c ∈ tr, c.inst = i) →
      observed L i g (Call.seedRand i s :: tr) =
        (tossCoins L tr.length (seedRand L s g)).1) := by
  have h1 := exec_tosses L tr (seedRand L s g) h
  refine ⟨by simpa [exec] using h1.1, by simpa [exec] using h1.2, ?_⟩
  intro hi
  have hall : ∀ p ∈ exec L (seedRand L s g) tr, (p.1 == i) = true := by
    intro p hp
    have hm : p.1 ∈ (exec L (seedRand L s g) tr).map Prod.fst :=
      List.mem_map_of_mem Prod.fst hp
    rw [h1.2] at hm
    obtain ⟨c, hc, hci⟩ := List.mem_map.1 hm
    simp [← hci, hi c hc]
  simp only [observed, exec]
  rw [List.filter_eq_self.2 hall]
  exact h1.1

/-- C3 amended, at the sample generator of the C standard: instance 0 seeds with
1, then instances 0, 1, 0 toss in that order. -/
theorem shared_generator_call_order_witness :
    (∀ c ∈ [Call.tossCoin 0, Call.tossCoin 1, Call.tossCoin 0], c.isToss = true) ∧
    (exec cStdRand cStdRand.start
      (Call.seedRand 0 1 :: [Call.tossCoin 0, Call.tossCoin 1, Call.tossCoin 0])).map
        Prod.snd = [false, true, true] :=
  ⟨by decide,
    (shared_generator_call_order cStdRand 0 1 cStdRand.start
      [Call.tossCoin 0, Call.tossCoin 1, Call.tossCoin 0] (by decide)).1.trans (by decide)⟩

/-- C4. For every build, every locale and every size `_throw_exceeds_size`
throws an `IndexError`; it never returns normally. -/
theorem throw_exceeds_size_always_IndexError (streams : Bool) (loc : Locale) (size : Nat) :
    (∃ msg, _throw_exceeds_size streams loc size = Except.error (Thrown.IndexError msg)) ∧
    (∀ u, _throw_exceeds_size streams loc size ≠ Except.ok u) := by
  refine ⟨⟨_, rfl⟩, ?_⟩
  intro u h
  simp [_throw_exceeds_size] at h

/-- C7, as stated, fails: no generator, no two environments and no number of
tosses give two runs without `seedRand` whose outcomes differ. -/
theorem unseeded_runs_never_differ :
    ¬ ∃ (L : CRand) (env₁ env₂ n : Nat), unseededRun L env₁ n ≠ unseededRun L env₂ n := by
  rintro ⟨L, env₁, env₂, n, h⟩
  exact h rfl

/-- C7, amended.  Without a call of `seedRand` the outcomes are deterministic:
on a C library that starts as the standard says, every run sees the outcomes
that follow `seedRand(1)`, whatever the time or entropy of the run. -/
theorem unseeded_run_is_seed_one (L : CRand) (hL : L.StartContract) (env n : Nat)
    (g : L.State) :
    unseededRun L env n = (tossCoins L n (seedRand L 1 g)).1 := by
  unfold unseededRun seedRand
  rw [(tossCoins_eq_map L n _).1, (tossCoins_eq_map L n _).1]
  have h := hL g n
  simpa using congrArg (List.map (tossCoinOf L.RAND_MAX)) h

/-- C7 amended, at the sample generator of the C standard. -/
theorem unseeded_run_is_seed_one_witness :
    cStdRand.StartContract ∧
    unseededRun cStdRand 20261030 4 = (tossCoins cStdRand 4 (seedRand cStdRand 1 (tossCoins cStdRand 3 cStdRand.start).2)).1 :=
  ⟨cStdRand_startContract,
    unseeded_run_is_seed_one cStdRand cStdRand_startContract 20261030 4
      (tossCoins cStdRand 3 cStdRand.start).2⟩

/-- C8, as stated, fails: in the streams build the digits go through the
locale of the stream.  When the global C++ locale groups digits by three with
a comma, the message for size 1234567 ends in `1,234,567`, which is not the
decimal representation `1234567`. -/
theorem throw_exceeds_size_message_grouped :
    _throw_exceeds_size true enUSLocale 1234567 =
      Except.error (Thrown.IndexError "Index out of range 0 <= index < 1,234,567") ∧
    "Index out of range 0 <= index < 1,234,567" ≠
      "Index out of range 0 <= index < " ++ Nat.repr 1234567 ∧
    _throw_exceeds_size true enUSLocale 1234567 ≠
      Except.error (Thrown.IndexError
        ("Index out of range 0 <= index < " ++ Nat.repr 1234567)) := by
  refine ⟨rfl, by decide, ?_⟩
  intro h
  have h1 : _throw_exceeds_size true enUSLocale 1234567 =
      Except.error (Thrown.IndexError "Index out of range 0 <= index < 1,234,567") := rfl
  rw [h1] at h
  injection h with h2
  injection h2 with h3
  exact absurd h3 (by decide)

/-- C8, amended.  Without `INCLUDE_METHODS_THAT_USE_STREAMS` the message is
`Index out of range.` for every size and locale.  With it, and a global C++
locale that groups no digits, the message is
`Index out of range 0 <= index < ` followed by the decimal digits of `size`,
digits that denote `size`. -/
theorem throw_exceeds_size_message (loc : Locale) (size : Nat)
    (hloc : loc.groupsDigits = false) :
    _throw_exceeds_size true loc size =
      Except.error (Thrown.IndexError ("Index out of range 0 <= index < " ++ Nat.repr size)) ∧
    decimalValue (Nat.repr size).data = size ∧
    (∀ loc1 : Locale, _throw_exceeds_size false loc1 size =
      Except.error (Thrown.IndexError "Index out of range.")) := by
  refine ⟨?_, decimalValue_repr size, fun _ => rfl⟩
  have h : numPut loc size = Nat.toDigits 10 size := numPut_ungrouped loc size hloc
  simp [_throw_exceeds_size, streamInsert, h, Nat.repr, List.asString]

/-- C8 amended, at the classic locale and size 1234567. -/
theorem throw_exceeds_size_message_witness :
    classicLocale.groupsDigits = false ∧
    _throw_exceeds_size true classicLocale 1234567 =
      Except.error (Thrown.IndexError "Index out of range 0 <= index < 1234567") :=
  ⟨rfl, (throw_exceeds_size_message classicLocale 1234567 rfl).1.trans (by rfl)⟩

end SkipList

/-! ## Theorems about `cSortedMap.cpp` -/

namespace CSortedMap

theorem sampleRuntime_wellFormed : sampleRuntime.WellFormed := by
  unfold PyRuntime.WellFormed sampleRuntime
  decide

theorem sampleTypeInRange_named :
    sampleTypeInRange KeyDataType.TYPE_LONG = true ∧
    sampleTypeInRange KeyDataType.TYPE_DOUBLE = true ∧
    sampleTypeInRange KeyDataType.TYPE_BYTES = true :=
  ⟨rfl, rfl, rfl⟩

theorem freshObject_valid : freshObject.Valid :=
  Or.inl rfl

theorem toSsize_t_small (n : Nat) (h : n < 2 ^ 63) : toSsize_t n = (n : Int) := by
  unfold toSsize_t
  have h1 : n % 2 ^ 64 = n := Nat.mod_eq_of_lt (by omega)
  rw [h1, if_pos h]

theorem dealloc_valid (file : String) (self : SortedMap) (st : PyState) (hs : self.Valid) :
    ∃ r, SortedMap_dealloc file self st = Except.ok r ∧ r.2.err = st.err := by
  obtain ⟨c, t, p, f⟩ := self
  cases p with
  | null => exact ⟨_, rfl, rfl⟩
  | keyLong m =>
    cases t <;> simp [SortedMap.Valid, selectedMapSize] at hs
    exact ⟨_, rfl, rfl⟩
  | keyDouble m =>
    cases t <;> simp [SortedMap.Valid, selectedMapSize] at hs
    exact ⟨_, rfl, rfl⟩
  | keyBytes m =>
    cases t <;> simp [SortedMap.Valid, selectedMapSize] at hs
    exact ⟨_, rfl, rfl⟩

theorem init_except_valid (file : String) (NDEBUG : Bool) (self : SortedMap) (st : PyState) (e : PyErr)
    (he : st.err = some e) (hs : self.Valid) :
    ∃ r, SortedMap_init_except file NDEBUG self st = Except.ok r ∧ r.ret_val = -1 ∧
      r.st.err = some e := by
  have ha : cAssert NDEBUG (PyErr_Occurred st) "PyErr_Occurred()" = Except.ok () := by
    simp [cAssert, PyErr_Occurred, he]
  have hv : SortedMap.Valid { self with ob_refcnt := self.ob_refcnt - 1 } := hs
  obtain ⟨r, hr, hre⟩ := dealloc_valid file { self with ob_refcnt := self.ob_refcnt - 1 } st hv
  unfold SortedMap_init_except
  rw [ha]
  by_cases h0 : self.ob_refcnt - 1 = 0
  · refine ⟨⟨-1, r.1, r.2⟩, ?_, rfl, ?_⟩
    · simp only [Py_XDECREF, h0, if_true]
      simp only [h0] at hr
      rw [hr]
      rfl
    · simpa [he] using hre
  · refine ⟨⟨-1, { self with ob_refcnt := self.ob_refcnt - 1 }, st⟩, ?_, rfl, he⟩
    simp only [Py_XDECREF, h0, if_false]
    rfl

theorem init_created_ok (NDEBUG : Bool) (self : SortedMap) (st : PyState)
    (he : st.err = none) (hp : self._p.nonNull = true) :
    SortedMap_init_created NDEBUG self st = Except.ok ⟨0, self, st⟩ := by
  have h1 : cAssert NDEBUG (!PyErr_Occurred st) "! PyErr_Occurred()" = Except.ok () := by
    simp [cAssert, PyErr_Occurred, he]
  have h2 : cAssert NDEBUG self._p.nonNull "self->_pKeyVoid" = Except.ok () := by
    simp [cAssert, hp]
  unfold SortedMap_init_created
  rw [h1, h2]
  rfl

theorem init_flavour (file : String) (R : PyRuntime) (hR : R.WellFormed) (NDEBUG : Bool) (self : SortedMap)
    (value_type : Ptr) (st : PyState) (hv : value_type ≠ NULL) (he : st.err = none)
    (h3 : value_type = R.PyLong_Type ∨ value_type = R.PyFloat_Type ∨
      value_type = R.PyBytes_Type) :
    SortedMap_init file R NDEBUG self (Except.ok value_type) st =
      Except.ok ⟨0,
        if value_type = R.PyLong_Type then
          { self with _data_type := KeyDataType.TYPE_LONG, _p := MapPtr.keyLong [] }
        else if value_type = R.PyFloat_Type then
          { self with _data_type := KeyDataType.TYPE_DOUBLE, _p := MapPtr.keyDouble [] }
        else
          { self with _data_type := KeyDataType.TYPE_BYTES, _p := MapPtr.keyBytes [] },
        st⟩ := by
  obtain ⟨hl, hf, hb, hlf, hlb, hfb⟩ := hR
  have ha : cAssert NDEBUG (value_type != NULL) "value_type" = Except.ok () := by
    simp [cAssert, hv]
  have hx : PyType_CheckExact R value_type = true := by
    rcases h3 with h | h | h <;> simp [PyType_CheckExact, h, hl, hf, hb]
  unfold SortedMap_init
  simp only [ha, hx]
  rcases h3 with h | h | h
  · subst h
    simpa using init_created_ok NDEBUG
      { self with _data_type := KeyDataType.TYPE_LONG, _p := MapPtr.keyLong [] } st he rfl
  · subst h
    simpa [Ne.symm hlf] using init_created_ok NDEBUG
      { self with _data_type := KeyDataType.TYPE_DOUBLE, _p := MapPtr.keyDouble [] } st he rfl
  · subst h
    simpa [Ne.symm hlb, Ne.symm hfb] using init_created_ok NDEBUG
      { self with _data_type := KeyDataType.TYPE_BYTES, _p := MapPtr.keyBytes [] } st he rfl

/-- C5. After a successful parse of the one argument `value_type`, on an object
that satisfies the invariant of the struct and with no exception pending,
`SortedMap_init` returns, and it returns 0 exactly when `value_type` is one of
the type objects `int`, `float`, `bytes`; for every other argument it returns
-1 with a `ValueError` set. -/
theorem SortedMap_init_accepts_exactly_three (file : String) (R : PyRuntime) (hR : R.WellFormed)
    (NDEBUG : Bool) (self : SortedMap) (value_type : Ptr) (st : PyState)
    (hv : value_type ≠ NULL) (he : st.err = none) (hs : self.Valid) :
    ∃ r, SortedMap_init file R NDEBUG self (Except.ok value_type) st = Except.ok r ∧
      (r.ret_val = 0 ↔ (value_type = R.PyLong_Type ∨ value_type = R.PyFloat_Type ∨
        value_type = R.PyBytes_Type)) ∧
      (¬ (value_type = R.PyLong_Type ∨ value_type = R.PyFloat_Type ∨
          value_type = R.PyBytes_Type) →
        r.ret_val = -1 ∧ ∃ msg, r.st.err = some ⟨PyExc.ValueError, msg⟩) := by
  by_cases h3 : value_type = R.PyLong_Type ∨ value_type = R.PyFloat_Type ∨
      value_type = R.PyBytes_Type
  · exact ⟨_, init_flavour file R hR NDEBUG self value_type st hv he h3,
      ⟨fun _ => h3, fun _ => rfl⟩, fun h => absurd h3 h⟩
  · have ha : cAssert NDEBUG (value_type != NULL) "value_type" = Except.ok () := by
      simp [cAssert, hv]
    have hn : value_type ≠ R.PyLong_Type ∧ value_type ≠ R.PyFloat_Type ∧
        value_type ≠ R.PyBytes_Type := by
      refine ⟨fun h => h3 (Or.inl h), fun h => h3 (Or.inr (Or.inl h)),
        fun h => h3 (Or.inr (Or.inr h))⟩
    by_cases hx : PyType_CheckExact R value_type = true
    · obtain ⟨r, hr, hr1, hr2⟩ := init_except_valid file NDEBUG self
        (PyErr_Format st PyExc.ValueError
          ("Argument to __init__ must be long, float or bytes, not \"" ++
            R.tp_name value_type ++ "\"")) _ rfl hs
      refine ⟨r, ?_, ⟨fun h => ?_, fun h => absurd h h3⟩, fun _ => ⟨hr1, _, hr2⟩⟩
      · unfold SortedMap_init
        simp only [ha, hx]
        simpa [hn.1, hn.2.1, hn.2.2] using hr
      · rw [hr1] at h
        exact absurd h (by decide)
    · obtain ⟨r, hr, hr1, hr2⟩ := init_except_valid file NDEBUG self
        (PyErr_Format st PyExc.ValueError
          ("Argument to __init__ must be type object not \"" ++
            R.tp_name (R.Py_TYPE value_type) ++ "\"")) _ rfl hs
      refine ⟨r, ?_, ⟨fun h => ?_, fun h => absurd h h3⟩, fun _ => ⟨hr1, _, hr2⟩⟩
      · unfold SortedMap_init
        simp only [ha]
        simpa [hx] using hr
      · rw [hr1] at h
        exact absurd h (by decide)

/-- C5, at the sample runtime: on a fresh object `float` (address 3) is
accepted. -/
theorem SortedMap_init_accepts_exactly_three_witness :
    sampleRuntime.WellFormed ∧ (3 : Ptr) ≠ NULL ∧ freshObject.Valid ∧
    ∃ r, SortedMap_init sampleFile sampleRuntime false freshObject (Except.ok 3) ⟨none, []⟩ =
        Except.ok r ∧
      (r.ret_val = 0 ↔ ((3 : Ptr) = sampleRuntime.PyLong_Type ∨
        (3 : Ptr) = sampleRuntime.PyFloat_Type ∨ (3 : Ptr) = sampleRuntime.PyBytes_Type)) ∧
      (¬ ((3 : Ptr) = sampleRuntime.PyLong_Type ∨ (3 : Ptr) = sampleRuntime.PyFloat_Type ∨
          (3 : Ptr) = sampleRuntime.PyBytes_Type) →
        r.ret_val = -1 ∧ ∃ msg, r.st.err = some ⟨PyExc.ValueError, msg⟩) :=
  ⟨sampleRuntime_wellFormed, by decide, freshObject_valid,
    SortedMap_init_accepts_exactly_three sampleFile sampleRuntime sampleRuntime_wellFormed
      false
      freshObject 3 ⟨none, []⟩ (by decide) rfl freshObject_valid⟩

/-- C6. `SortedMap_size` returns the number of elements of the map of the
flavour `_data_type` selects, as a Python `int`; and after `SortedMap_init`
succeeded with `int`, `float` or `bytes` the flavour is `TYPE_LONG`,
`TYPE_DOUBLE`, `TYPE_BYTES` respectively and the size returned is 0. -/
theorem SortedMap_size_is_element_count (file : String) (R : PyRuntime) (hR : R.WellFormed)
    (NDEBUG : Bool) (typeInRange : KeyDataType → Bool)
    (hT : typeInRange KeyDataType.TYPE_LONG = true ∧
      typeInRange KeyDataType.TYPE_DOUBLE = true ∧
      typeInRange KeyDataType.TYPE_BYTES = true) :
    (∀ (self : SortedMap) (st : PyState) (n : Nat),
      selectedMapSize self = some n → n < 2 ^ 63 → st.err = none →
        SortedMap_size file NDEBUG typeInRange self st =
          Except.ok (some (PyObject.PyLong n), st)) ∧
    (∀ (self : SortedMap) (st : PyState) (value_type : Ptr),
      value_type ≠ NULL → st.err = none →
      (value_type = R.PyLong_Type ∨ value_type = R.PyFloat_Type ∨
        value_type = R.PyBytes_Type) →
        ∃ r, SortedMap_init file R NDEBUG self (Except.ok value_type) st = Except.ok r ∧
          r.ret_val = 0 ∧
          r.self._data_type =
            (if value_type = R.PyLong_Type then KeyDataType.TYPE_LONG
             else if value_type = R.PyFloat_Type then KeyDataType.TYPE_DOUBLE
             else KeyDataType.TYPE_BYTES) ∧
          selectedMapSize r.self = some 0 ∧
          SortedMap_size file NDEBUG typeInRange r.self r.st =
            Except.ok (some (PyObject.PyLong 0), r.st)) := by
  have hsize : ∀ (self : SortedMap) (st : PyState) (n : Nat),
      selectedMapSize self = some n → n < 2 ^ 63 → st.err = none →
        SortedMap_size file NDEBUG typeInRange self st =
          Except.ok (some (PyObject.PyLong n), st) := by
    intro self st n hn hb he
    have h3 : cAssert NDEBUG (!PyErr_Occurred st) "! PyErr_Occurred()" = Except.ok () := by
      simp [cAssert, PyErr_Occurred, he]
    obtain ⟨c, t, p, f⟩ := self
    cases t <;> cases p <;> simp [selectedMapSize] at hn
    all_goals
      subst hn
      simp [SortedMap_size, cAssert, MapPtr.nonNull, hT.1, hT.2.1, hT.2.2, PyErr_Occurred,
        he, MapPtr.derefLong, MapPtr.derefDouble, MapPtr.derefBytes, PyLong_FromSsize_t,
        toSsize_t_small _ hb, bind, Except.bind]
  refine ⟨hsize, ?_⟩
  intro self st value_type hv he h3
  refine ⟨_, init_flavour file R hR NDEBUG self value_type st hv he h3, rfl, ?_, ?_, ?_⟩
  · simp only
    split_ifs <;> rfl
  · simp only
    split_ifs <;> rfl
  · apply hsize _ _ 0 _ (by norm_num) he
    simp only
    split_ifs <;> rfl

/-- C6, at the sample runtime: a `float` map with two entries has size 2. -/
theorem SortedMap_size_is_element_count_witness :
    sampleRuntime.WellFormed ∧
    (sampleTypeInRange KeyDataType.TYPE_LONG = true ∧
      sampleTypeInRange KeyDataType.TYPE_DOUBLE = true ∧
      sampleTypeInRange KeyDataType.TYPE_BYTES = true) ∧
    SortedMap_size sampleFile false sampleTypeInRange
        ⟨1, KeyDataType.TYPE_DOUBLE, MapPtr.keyDouble [(0, 11), (5, 12)], false⟩ ⟨none, []⟩ =
      Except.ok (some (PyObject.PyLong 2), ⟨none, []⟩) :=
  ⟨sampleRuntime_wellFormed, sampleTypeInRange_named,
    (SortedMap_size_is_element_count sampleFile sampleRuntime sampleRuntime_wellFormed false
      sampleTypeInRange sampleTypeInRange_named).1 _ _ 2 rfl (by norm_num) rfl⟩

end CSortedMap
